import Mathlib

/-!
Shallow embedding of the `stata_to_df` adapter.

The repository has three source files:
* `exceptions.py` — a flat error taxonomy (`StataToDfBaseError` with
  subclasses `ConfigValidationError` and `DataLoaderError`);
* `config.py` — a pydantic `ConfigModel` (`row_var`, `col_var`,
  `value_var` required; `pweight`, `secondary_ref` optional) with an
  after-model validator `check_variable_names_distinct`, and a
  `validate_config` wrapper turning pydantic `ValidationError`s into
  `ConfigValidationError`;
* `__init__.py` — `setup_stata` (environment bootstrap for the external
  pystata session), `load_data` (computes the required variable set,
  fetches a dataframe, wraps non-taxonomy exceptions) and the public
  entry point `stata_to_df`.

Python dictionaries of raw JSON-like values are embedded as `RawConfig`
over `RawValue`; pydantic's structural pass (which aggregates all field
errors before raising) is embedded as `parse_fields`; exceptions are
embedded as `Except` error values; the external pystata collaborator is
a parameter (`PystataOutcome` / `Fetch`).  Python truthiness on optional
strings (`if self.pweight:`) is `truthyStr`: both `None` and the empty
string are falsy.
-/

namespace StataToDf

/-- A raw JSON-like value appearing in the user-supplied configuration
dictionary, as pydantic sees it: a string, a list, `None`, or a value of
some other (non-string, non-list) type such as an int. -/
inductive RawValue where
  | vstr (s : String)
  | vlist (xs : List RawValue)
  | vnone
  | vint (n : Int)

/-- The raw configuration mapping restricted to the keys `ConfigModel`
declares (pydantic ignores unknown keys by default).  `none` means the
key is absent from the dictionary. -/
structure RawConfig where
  row_var : Option RawValue
  col_var : Option RawValue
  value_var : Option RawValue
  pweight : Option RawValue
  secondary_ref : Option RawValue

/-- `ConfigModel` from `src/config.py`: the validated configuration. -/
structure ConfigModel where
  row_var : List String
  col_var : List String
  value_var : String
  pweight : Option String
  secondary_ref : Option String
deriving DecidableEq, Repr

/-- Python truthiness of an optional string: `None` and `""` are falsy.
This is the test `if self.pweight:` / `if not PYSTATA_PATH:` etc. -/
def truthyStr : Option String → Bool
  | Option.none => false
  | Option.some s => s != ""

/-- The `ValueError` raised by `ConfigModel.check_variable_names_distinct`,
kept structured: each constructor carries exactly the data interpolated
into the corresponding f-string message, so "the message names the
variables" is expressed as the error carrying them. -/
inductive DistinctError where
  | overlap (vars : Finset String)
  | dupRow (vars : List String)
  | dupCol (vars : List String)
deriving DecidableEq

/-- A pydantic error message, structured.  `valueError` is the wrapper
pydantic puts around a `ValueError` raised in a model validator. -/
inductive ErrMsg where
  | fieldRequired
  | notAValidList
  | notAValidString
  | listTooShort
  | valueError (e : DistinctError)
deriving DecidableEq

/-- One entry of a pydantic `ValidationError`: a location (field path)
and a message. -/
structure PydanticError where
  loc : List String
  msg : ErrMsg
deriving DecidableEq

/-- `ConfigValidationError` from `src/exceptions.py`, carrying the list
of pydantic errors whose rendered lines make up its message
(`validate_config` joins one line per error). -/
structure ConfigValidationError where
  errors : List PydanticError
deriving DecidableEq

/-- The pattern `if self.x: s.add(self.x)` on a Python set, used for
both optional fields in `check_variable_names_distinct` and in
`load_data`: the optional string is added only when truthy. -/
def addTruthy (o : Option String) (s : Finset String) : Finset String :=
  match o with
  | Option.some p => if p != "" then insert p s else s
  | Option.none => s

/-- The same pattern on the materialized (duplicate-free) list. -/
def addTruthyList (o : Option String) (l : List String) : List String :=
  match o with
  | Option.some p => if p != "" then l.insert p else l
  | Option.none => l

/-- The set `core_vars` built in `check_variable_names_distinct`
(config.py lines 26-30): `{value_var}`, plus `pweight` and
`secondary_ref` when truthy. -/
def coreVars (m : ConfigModel) : Finset String :=
  addTruthy m.secondary_ref (addTruthy m.pweight {m.value_var})

/-- `ConfigModel.check_variable_names_distinct` (config.py lines 23-44):
overlap check between core and index variables, then duplicate checks
within `row_var` and within `col_var` (`len(x) != len(set(x))`). -/
def check_variable_names_distinct (m : ConfigModel) : Except DistinctError ConfigModel :=
  let core_vars := coreVars m
  let all_index_vars : Finset String := (m.row_var ++ m.col_var).toFinset
  let overlap := core_vars ∩ all_index_vars
  if overlap.Nonempty then
    Except.error (DistinctError.overlap overlap)
  else if m.row_var.length ≠ m.row_var.toFinset.card then
    Except.error (DistinctError.dupRow m.row_var)
  else if m.col_var.length ≠ m.col_var.toFinset.card then
    Except.error (DistinctError.dupCol m.col_var)
  else
    Except.ok m

/-- Pydantic validation of the items of a `List[str]` field: returns the
item-level errors (loc `(field, index)`) together with the successfully
parsed strings. -/
def parseItems (field : String) (idx : Nat) : List RawValue → List PydanticError × List String
  | [] => ([], [])
  | v :: rest =>
    let tail := parseItems field (idx + 1) rest
    match v with
    | RawValue.vstr s => (tail.1, s :: tail.2)
    | _ => (⟨[field, toString idx], ErrMsg.notAValidString⟩ :: tail.1, tail.2)

/-- Pydantic validation of a required `List[str]` field with
`min_length=1`: missing field, non-list value, non-string items and the
minimum-length constraint each produce errors; all item errors are
collected, not just the first. -/
def parse_str_list (field : String) (v : Option RawValue) : Except (List PydanticError) (List String) :=
  match v with
  | Option.none => Except.error [⟨[field], ErrMsg.fieldRequired⟩]
  | Option.some (RawValue.vlist xs) =>
    let items := parseItems field 0 xs
    let es := if xs.length < 1 then items.1 ++ [⟨[field], ErrMsg.listTooShort⟩] else items.1
    if es.isEmpty then Except.ok items.2 else Except.error es
  | Option.some _ => Except.error [⟨[field], ErrMsg.notAValidList⟩]

/-- Pydantic validation of a required `str` field. -/
def parse_str (field : String) (v : Option RawValue) : Except (List PydanticError) String :=
  match v with
  | Option.none => Except.error [⟨[field], ErrMsg.fieldRequired⟩]
  | Option.some (RawValue.vstr s) => Except.ok s
  | Option.some _ => Except.error [⟨[field], ErrMsg.notAValidString⟩]

/-- Pydantic validation of an `Optional[str]` field with default
`None`: an absent key or an explicit `None` both yield `None`. -/
def parse_opt_str (field : String) (v : Option RawValue) : Except (List PydanticError) (Option String) :=
  match v with
  | Option.none => Except.ok Option.none
  | Option.some RawValue.vnone => Except.ok Option.none
  | Option.some (RawValue.vstr s) => Except.ok (Option.some s)
  | Option.some _ => Except.error [⟨[field], ErrMsg.notAValidString⟩]

/-- The errors of a field result (empty when the field parsed). -/
def errsOf {α : Type} : Except (List PydanticError) α → List PydanticError
  | Except.error es => es
  | Except.ok _ => []

/-- Pydantic's structural (first) pass over `ConfigModel`'s fields:
every field is validated and ALL errors are aggregated, in field
declaration order, before raising. -/
def parse_fields (raw : RawConfig) : Except (List PydanticError) ConfigModel :=
  let r := parse_str_list "row_var" raw.row_var
  let c := parse_str_list "col_var" raw.col_var
  let v := parse_str "value_var" raw.value_var
  let p := parse_opt_str "pweight" raw.pweight
  let s := parse_opt_str "secondary_ref" raw.secondary_ref
  match r, c, v, p, s with
  | Except.ok rs, Except.ok cs, Except.ok vv, Except.ok pw, Except.ok sr =>
    Except.ok ⟨rs, cs, vv, pw, sr⟩
  | _, _, _, _, _ =>
    Except.error (errsOf r ++ errsOf c ++ errsOf v ++ errsOf p ++ errsOf s)

/-- `ConfigModel.model_validate`: the structural pass, then — only when
it succeeded — the `mode='after'` model validator; a `ValueError` raised
there becomes a single pydantic error with empty location. -/
def model_validate (raw : RawConfig) : Except (List PydanticError) ConfigModel :=
  match parse_fields raw with
  | Except.error es => Except.error es
  | Except.ok m =>
    match check_variable_names_distinct m with
    | Except.error d => Except.error [⟨[], ErrMsg.valueError d⟩]
    | Except.ok m2 => Except.ok m2

/-- `validate_config` (config.py lines 50-78): runs
`ConfigModel.model_validate` and converts a pydantic `ValidationError`
into a single `ConfigValidationError` listing every reported error. -/
def validate_config (raw : RawConfig) : Except ConfigValidationError ConfigModel :=
  match model_validate raw with
  | Except.ok m => Except.ok m
  | Except.error es => Except.error ⟨es⟩

/-- Convenience constructor for the raw dictionary holding the given
well-typed field values (lists of strings, a string, optional strings;
an absent optional maps to an absent key). -/
def mkRaw (rs cs : List String) (v : String) (pw sr : Option String) : RawConfig :=
  ⟨Option.some (RawValue.vlist (rs.map RawValue.vstr)),
   Option.some (RawValue.vlist (cs.map RawValue.vstr)),
   Option.some (RawValue.vstr v),
   pw.map RawValue.vstr,
   sr.map RawValue.vstr⟩

/-- Equality of embedded outcomes (success value or raised exception)
is decidable, so concrete runs can be checked by evaluation. -/
instance instDecEqExcept {ε α : Type} [DecidableEq ε] [DecidableEq α] : DecidableEq (Except ε α) :=
  fun x y =>
    match x, y with
    | Except.ok a, Except.ok b =>
      if h : a = b then Decidable.isTrue (by rw [h])
      else Decidable.isFalse (fun c => h (Except.ok.inj c))
    | Except.error a, Except.error b =>
      if h : a = b then Decidable.isTrue (by rw [h])
      else Decidable.isFalse (fun c => h (Except.error.inj c))
    | Except.ok _, Except.error _ => Decidable.isFalse (fun c => Except.noConfusion c)
    | Except.error _, Except.ok _ => Decidable.isFalse (fun c => Except.noConfusion c)

/-- The pandas DataFrame returned by
`stata.pdataframe_from_data`: named columns and rows of cells (cell
contents are irrelevant to every claim, so cells are plain strings). -/
structure DataFrame where
  columns : List String
  rows : List (List String)
deriving DecidableEq

/-- `DataFrame.empty` in pandas: true when either axis has length 0. -/
def DataFrame.emptyDf (df : DataFrame) : Bool :=
  df.rows.length == 0 || df.columns.length == 0

/-- `DataLoaderError` from `src/exceptions.py`, one constructor per
raise site, carrying the data interpolated into the message.
`loadFailed` (init .py line 137) carries the requested variable list and
the original error text. -/
inductive DataLoaderError where
  | pathNotSet
  | editionNotSet
  | importFailed (msg : String)
  | initFailed (msg : String)
  | loadFailed (vars : List String) (msg : String)
deriving DecidableEq, Repr

/-- An exception the external fetch call may raise: either already a
`DataLoaderError`, or any other Python exception (carried as text). -/
inductive PyExc where
  | loaderError (e : DataLoaderError)
  | otherExc (msg : String)
deriving DecidableEq

/-- The session handle returned by `setup_stata`: the single operation
`pdataframe_from_data`, taking the variable list and the value-label
flag, and either returning a dataframe or raising. -/
def Fetch : Type := List String → Bool → Except PyExc DataFrame

/-- Behaviour of the external pystata package once both environment
variables are set: importing it may fail, `config.init` may fail, or it
yields a working session handle. -/
inductive PystataOutcome where
  | importError (msg : String)
  | initError (msg : String)
  | ok (fetch : Fetch)

/-- The two pieces of process-wide bootstrap configuration read from
the environment (init .py lines 18-19); `none` means the variable is
absent. -/
structure Env where
  PYSTATA_PATH : Option String
  STATA_EDITION : Option String

/-- `setup_stata` (init .py lines 35-85): fails with `DataLoaderError`
when `PYSTATA_PATH` or `STATA_EDITION` is falsy, then surfaces pystata
import/initialization failures as `DataLoaderError`, otherwise returns
the session handle. -/
def setup_stata (env : Env) (py : PystataOutcome) : Except DataLoaderError Fetch :=
  if !truthyStr env.PYSTATA_PATH then
    Except.error DataLoaderError.pathNotSet
  else if !truthyStr env.STATA_EDITION then
    Except.error DataLoaderError.editionNotSet
  else
    match py with
    | PystataOutcome.importError m => Except.error (DataLoaderError.importFailed m)
    | PystataOutcome.initError m => Except.error (DataLoaderError.initFailed m)
    | PystataOutcome.ok fetch => Except.ok fetch

/-- `required_vars` (init .py lines 101-105):
`set(row_var + col_var + [value_var])`, then `pweight` and
`secondary_ref` added when truthy. -/
def required_vars (config : ConfigModel) : Finset String :=
  addTruthy config.secondary_ref (addTruthy config.pweight
    (config.row_var ++ config.col_var ++ [config.value_var]).toFinset)

/-- `st_import_vars = list(required_vars)` (init .py line 112): the
set materialized as a duplicate-free list (Python set iteration order is
unspecified; the embedding materializes the same construction as
`required_vars` with `List.dedup` / `List.insert`, which is proved to
carry exactly the set `required_vars`). -/
def st_import_vars (config : ConfigModel) : List String :=
  addTruthyList config.secondary_ref (addTruthyList config.pweight
    (config.row_var ++ config.col_var ++ [config.value_var]).dedup)

/-- `load_data` (init .py lines 88-139): computes the variable list,
sets up the session, fetches the dataframe (an empty result is only a
warning and is returned as-is), re-raises a `DataLoaderError` unchanged
and wraps any other exception into `DataLoaderError.loadFailed` with
the variable list and original text. -/
def load_data (env : Env) (py : PystataOutcome) (config : ConfigModel) (valuelabel : Bool) :
    Except DataLoaderError DataFrame :=
  let vars := st_import_vars config
  match setup_stata env py with
  | Except.error e => Except.error e
  | Except.ok fetch =>
    match fetch vars valuelabel with
    | Except.ok df => Except.ok df
    | Except.error (PyExc.loaderError e) => Except.error e
    | Except.error (PyExc.otherExc m) => Except.error (DataLoaderError.loadFailed vars m)

/-- An exception reaching the handlers of the public entry point:
the two taxonomy errors (subclasses of `StataToDfBaseError`) or any
other unexpected exception. -/
inductive AppExc where
  | configError (e : ConfigValidationError)
  | loaderError (e : DataLoaderError)
  | otherExc (msg : String)
deriving DecidableEq

/-- `isinstance(e, StataToDfBaseError)`: whether the exception belongs
to the taxonomy of `src/exceptions.py`. -/
def AppExc.isStataToDfBaseError : AppExc → Bool
  | AppExc.configError _ => true
  | AppExc.loaderError _ => true
  | AppExc.otherExc _ => false

/-- The two `except` clauses of `stata_to_df` (init .py lines 27-32):
`except StataToDfBaseError as e: logger.error(...); raise` and
`except Exception as e: logger.error(...); raise` — both re-raise the
caught exception unchanged after logging. -/
def stata_to_df_handlers (r : Except AppExc DataFrame) : Except AppExc DataFrame :=
  match r with
  | Except.ok df => Except.ok df
  | Except.error e =>
    if e.isStataToDfBaseError then Except.error e else Except.error e

/-- `stata_to_df` (init .py lines 22-32): validate the configuration,
load the data, and pass any exception through the two handler
clauses. -/
def stata_to_df (env : Env) (py : PystataOutcome) (config_dict : RawConfig) (valuelabel : Bool) :
    Except AppExc DataFrame :=
  stata_to_df_handlers
    (match validate_config config_dict with
     | Except.error e => Except.error (AppExc.configError e)
     | Except.ok config =>
       match load_data env py config valuelabel with
       | Except.error e => Except.error (AppExc.loaderError e)
       | Except.ok df => Except.ok df)

end StataToDf

namespace StataToDf

/-! Helper lemmas shared by several theorems. -/

theorem addTruthy_none (s : Finset String) : addTruthy Option.none s = s := rfl

theorem addTruthy_empty (s : Finset String) : addTruthy (Option.some "") s = s := rfl

theorem addTruthyList_none (l : List String) : addTruthyList Option.none l = l := rfl

theorem addTruthyList_empty (l : List String) : addTruthyList (Option.some "") l = l := rfl

theorem parseItems_map_vstr (field : String) (idx : Nat) (rs : List String) :
    parseItems field idx (rs.map RawValue.vstr) = ([], rs) := by
  induction rs generalizing idx with
  | nil => rfl
  | cons s rest ih =>
    simp [parseItems, ih]

theorem parse_str_list_map (field : String) (rs : List String) (hr : rs ≠ []) :
    parse_str_list field (Option.some (RawValue.vlist (rs.map RawValue.vstr))) = Except.ok rs := by
  have hlen : ¬ (rs.map RawValue.vstr).length < 1 := by
    simp only [List.length_map, Nat.lt_one_iff, List.length_eq_zero]
    exact hr
  simp [parse_str_list, parseItems_map_vstr, hlen, hr]

theorem parse_fields_mkRaw (rs cs : List String) (v : String) (pw sr : Option String)
    (hr : rs ≠ []) (hc : cs ≠ []) :
    parse_fields (mkRaw rs cs v pw sr) = Except.ok ⟨rs, cs, v, pw, sr⟩ := by
  have hpw : parse_opt_str "pweight" (pw.map RawValue.vstr) = Except.ok pw := by
    cases pw <;> rfl
  have hsr : parse_opt_str "secondary_ref" (sr.map RawValue.vstr) = Except.ok sr := by
    cases sr <;> rfl
  simp [parse_fields, mkRaw, parse_str_list_map _ _ hr, parse_str_list_map _ _ hc,
    parse_str, hpw, hsr]

theorem check_ok (m : ConfigModel)
    (hdisj : coreVars m ∩ (m.row_var ++ m.col_var).toFinset = ∅)
    (hrn : m.row_var.Nodup) (hcn : m.col_var.Nodup) :
    check_variable_names_distinct m = Except.ok m := by
  have h2 : m.row_var.toFinset.card = m.row_var.length := List.toFinset_card_of_nodup hrn
  have h3 : m.col_var.toFinset.card = m.col_var.length := List.toFinset_card_of_nodup hcn
  have h4 : coreVars m ∩ (m.row_var.toFinset ∪ m.col_var.toFinset) = ∅ := by
    rw [← List.toFinset_append]; exact hdisj
  simp [check_variable_names_distinct, h4, h2, h3]

theorem validate_config_mkRaw_ok (rs cs : List String) (v : String) (pw sr : Option String)
    (hr : rs ≠ []) (hc : cs ≠ []) (hrn : rs.Nodup) (hcn : cs.Nodup)
    (hdisj : coreVars ⟨rs, cs, v, pw, sr⟩ ∩ (rs ++ cs).toFinset = ∅) :
    validate_config (mkRaw rs cs v pw sr) = Except.ok ⟨rs, cs, v, pw, sr⟩ := by
  have hck := check_ok ⟨rs, cs, v, pw, sr⟩ hdisj hrn hcn
  simp [validate_config, model_validate, parse_fields_mkRaw rs cs v pw sr hr hc, hck]

end StataToDf

namespace StataToDf

/-- C1 (counterexample): the claim fails for an overlapping *empty*
optional: with `pweight = ""` present (non-None) and `""` also a member
of `row_var`, validation nevertheless succeeds, because the code tests
Python truthiness (`if self.pweight:`), not non-None-ness. -/
theorem c1_counterexample :
    validate_config (mkRaw [""] ["c"] "v" (Option.some "") Option.none) =
      Except.ok ⟨[""], ["c"], "v", Option.some "", Option.none⟩ ∧
    "" ∈ ([""] : List String) :=
  ⟨by decide, by decide⟩

/-- C1 (amended): for every raw configuration that passes structural
field validation and in which `value_var`, or a present and non-empty
`pweight`, or a present and non-empty `secondary_ref` occurs in
`row_var ∪ col_var`, validation fails with a `ConfigValidationError`
carrying exactly the overlapping name(s), and the public entry point
returns that same error whatever the environment and external session
do — i.e. before any external session call. -/
theorem c1_overlap_validation_error (raw : RawConfig) (m : ConfigModel)
    (hparse : parse_fields raw = Except.ok m)
    (hov : (coreVars m ∩ (m.row_var ++ m.col_var).toFinset).Nonempty) :
    validate_config raw = Except.error ⟨[⟨[], ErrMsg.valueError (DistinctError.overlap
      (coreVars m ∩ (m.row_var ++ m.col_var).toFinset))⟩]⟩ ∧
    ∀ env py vl, stata_to_df env py raw vl = Except.error (AppExc.configError
      ⟨[⟨[], ErrMsg.valueError (DistinctError.overlap
        (coreVars m ∩ (m.row_var ++ m.col_var).toFinset))⟩]⟩) := by
  have hck : check_variable_names_distinct m = Except.error (DistinctError.overlap
      (coreVars m ∩ (m.row_var ++ m.col_var).toFinset)) := by
    unfold check_variable_names_distinct
    rw [if_pos hov]
  have hv : validate_config raw = Except.error ⟨[⟨[], ErrMsg.valueError (DistinctError.overlap
      (coreVars m ∩ (m.row_var ++ m.col_var).toFinset))⟩]⟩ := by
    simp [validate_config, model_validate, hparse, hck]
  refine ⟨hv, fun env py vl => ?_⟩
  simp [stata_to_df, hv, stata_to_df_handlers]

/-- C1 (witness): `value_var = "x"` also appears in `row_var`; the
overlap `{x}` is reported and the entry point fails identically with a
live session available. -/
theorem c1_overlap_validation_error_witness :
    validate_config (mkRaw ["x"] ["c"] "x" Option.none Option.none) =
      Except.error ⟨[⟨[], ErrMsg.valueError (DistinctError.overlap
        (coreVars ⟨["x"], ["c"], "x", Option.none, Option.none⟩ ∩
          ((["x"] : List String) ++ ["c"]).toFinset))⟩]⟩ ∧
    stata_to_df ⟨Option.some "/opt/stata", Option.some "mp"⟩
      (PystataOutcome.ok (fun _ _ => Except.ok ⟨[], []⟩))
      (mkRaw ["x"] ["c"] "x" Option.none Option.none) true =
      Except.error (AppExc.configError ⟨[⟨[], ErrMsg.valueError (DistinctError.overlap
        (coreVars ⟨["x"], ["c"], "x", Option.none, Option.none⟩ ∩
          ((["x"] : List String) ++ ["c"]).toFinset))⟩]⟩) :=
  ⟨(c1_overlap_validation_error (mkRaw ["x"] ["c"] "x" Option.none Option.none)
      ⟨["x"], ["c"], "x", Option.none, Option.none⟩ (by decide) (by decide)).1,
   (c1_overlap_validation_error (mkRaw ["x"] ["c"] "x" Option.none Option.none)
      ⟨["x"], ["c"], "x", Option.none, Option.none⟩ (by decide) (by decide)).2 _ _ _⟩

/-- C2: a raw mapping whose `row_var` and `col_var` are non-empty
duplicate-free lists of strings, whose `value_var` is a string, and
whose names keep the (truthy) core variables disjoint from the index
variables, validates successfully into a `ConfigModel` whose fields
equal the inputs, the optional fields defaulting to `None` when the key
is absent. -/
theorem c2_valid_config_roundtrip (rs cs : List String) (v : String) (pw sr : Option String)
    (hr : rs ≠ []) (hc : cs ≠ []) (hrn : rs.Nodup) (hcn : cs.Nodup)
    (hdisj : coreVars ⟨rs, cs, v, pw, sr⟩ ∩ (rs ++ cs).toFinset = ∅) :
    validate_config (mkRaw rs cs v pw sr) = Except.ok ⟨rs, cs, v, pw, sr⟩ :=
  validate_config_mkRaw_ok rs cs v pw sr hr hc hrn hcn hdisj

/-- C2 (witness): the spec's own example
`row_var=["region"], col_var=["year"], value_var="income"`. -/
theorem c2_valid_config_roundtrip_witness :
    validate_config (mkRaw ["region"] ["year"] "income" Option.none Option.none) =
      Except.ok ⟨["region"], ["year"], "income", Option.none, Option.none⟩ :=
  c2_valid_config_roundtrip ["region"] ["year"] "income" Option.none Option.none
    (by decide) (by decide) (by decide) (by decide) (by decide)

end StataToDf

namespace StataToDf

/-- C9 (counterexample): `row_var=["x"], col_var=["x"]` with the
distinct valid `value_var="y"` does NOT produce a validation error —
validation succeeds, because the overlap check only compares core
variables against index variables and the duplicate checks are per-list,
so the same name may appear in both `row_var` and `col_var`. -/
theorem c9_counterexample :
    validate_config (mkRaw ["x"] ["x"] "y" Option.none Option.none) =
      Except.ok ⟨["x"], ["x"], "y", Option.none, Option.none⟩ := by decide

/-- C9 (amended): a configuration with `row_var=["x"]`, `col_var=["x"]`
and a distinct valid `value_var` validates successfully: the same name
in both `row_var` and `col_var` is permitted by the current rules (only
duplicates within a single list, or overlap with core variables, are
rejected). -/
theorem c9_cross_list_duplicate_allowed (v : String) (hv : v ≠ "x") :
    validate_config (mkRaw ["x"] ["x"] v Option.none Option.none) =
      Except.ok ⟨["x"], ["x"], v, Option.none, Option.none⟩ := by
  apply validate_config_mkRaw_ok _ _ _ _ _ (by decide) (by decide) (by decide) (by decide)
  have hcv : coreVars ⟨["x"], ["x"], v, Option.none, Option.none⟩ = {v} := rfl
  rw [hcv]
  apply Finset.singleton_inter_of_not_mem
  simp [hv]

/-- C9 (witness): the amended statement at `value_var = "y"`. -/
theorem c9_cross_list_duplicate_allowed_witness :
    validate_config (mkRaw ["x"] ["x"] "y" Option.none Option.none) =
      Except.ok ⟨["x"], ["x"], "y", Option.none, Option.none⟩ :=
  c9_cross_list_duplicate_allowed "y" (by decide)

/-- C10: an empty-string `pweight` or `secondary_ref` is treated as
absent at both stages (Python truthiness): it is not added to the core
variables of the overlap check — so `pweight=""` with `""` also in
`row_var` still validates — and it is not added to the required
variable set computed by the loader. -/
theorem c10_empty_string_optional_absent (rs cs : List String) (v : String) (pw sr : Option String) :
    coreVars ⟨rs, cs, v, Option.some "", sr⟩ = coreVars ⟨rs, cs, v, Option.none, sr⟩ ∧
    coreVars ⟨rs, cs, v, pw, Option.some ""⟩ = coreVars ⟨rs, cs, v, pw, Option.none⟩ ∧
    required_vars ⟨rs, cs, v, Option.some "", sr⟩ = required_vars ⟨rs, cs, v, Option.none, sr⟩ ∧
    required_vars ⟨rs, cs, v, pw, Option.some ""⟩ = required_vars ⟨rs, cs, v, pw, Option.none⟩ ∧
    st_import_vars ⟨rs, cs, v, Option.some "", sr⟩ = st_import_vars ⟨rs, cs, v, Option.none, sr⟩ ∧
    st_import_vars ⟨rs, cs, v, pw, Option.some ""⟩ = st_import_vars ⟨rs, cs, v, pw, Option.none⟩ ∧
    ("" ∈ rs → rs ≠ [] → cs ≠ [] → rs.Nodup → cs.Nodup →
      coreVars ⟨rs, cs, v, Option.some "", sr⟩ ∩ (rs ++ cs).toFinset = ∅ →
      validate_config (mkRaw rs cs v (Option.some "") sr) =
        Except.ok ⟨rs, cs, v, Option.some "", sr⟩) := by
  refine ⟨by simp [coreVars, addTruthy_empty, addTruthy_none],
    by simp [coreVars, addTruthy_empty, addTruthy_none],
    by simp [required_vars, addTruthy_empty, addTruthy_none],
    by simp [required_vars, addTruthy_empty, addTruthy_none],
    by simp [st_import_vars, addTruthyList_empty, addTruthyList_none],
    by simp [st_import_vars, addTruthyList_empty, addTruthyList_none],
    fun hmem hr hc hrn hcn hdisj => ?_⟩
  exact validate_config_mkRaw_ok rs cs v (Option.some "") sr hr hc hrn hcn hdisj

/-- C10 (witness): `row_var=[""]` together with `pweight=""` validates,
and the empty string contributed by `pweight` alone is absent from the
required set. -/
theorem c10_empty_string_optional_absent_witness :
    coreVars ⟨[""], ["c"], "v", Option.some "", Option.none⟩ =
      coreVars ⟨[""], ["c"], "v", Option.none, Option.none⟩ ∧
    required_vars ⟨["r"], ["c"], "v", Option.some "", Option.none⟩ =
      required_vars ⟨["r"], ["c"], "v", Option.none, Option.none⟩ ∧
    validate_config (mkRaw [""] ["c"] "v" (Option.some "") Option.none) =
      Except.ok ⟨[""], ["c"], "v", Option.some "", Option.none⟩ :=
  ⟨(c10_empty_string_optional_absent [""] ["c"] "v" Option.none Option.none).1,
   (c10_empty_string_optional_absent ["r"] ["c"] "v" Option.none Option.none).2.2.1,
   (c10_empty_string_optional_absent [""] ["c"] "v" Option.none Option.none).2.2.2.2.2.2
     (by decide) (by decide) (by decide) (by decide) (by decide) (by decide)⟩

end StataToDf

namespace StataToDf

theorem toFinset_list_insert (a : String) (l : List String) :
    (l.insert a).toFinset = insert a l.toFinset := by
  ext x
  simp [List.mem_insert_iff]

theorem toFinset_list_dedup (l : List String) : l.dedup.toFinset = l.toFinset := by
  ext x
  simp

theorem addTruthyList_nodup (o : Option String) (l : List String) (h : l.Nodup) :
    (addTruthyList o l).Nodup := by
  cases o with
  | none => exact h
  | some p =>
    unfold addTruthyList
    by_cases hp : p = ""
    · simpa [hp] using h
    · simpa [hp] using h.insert

theorem addTruthyList_toFinset (o : Option String) (l : List String) :
    (addTruthyList o l).toFinset = addTruthy o l.toFinset := by
  cases o with
  | none => rfl
  | some p =>
    unfold addTruthyList addTruthy
    by_cases hp : p = "" <;> simp [hp, toFinset_list_insert]

theorem mem_addTruthy (o : Option String) (s : Finset String) (x : String) :
    x ∈ addTruthy o s ↔ (truthyStr o = true ∧ o = Option.some x) ∨ x ∈ s := by
  cases o with
  | none => simp [addTruthy, truthyStr]
  | some p =>
    by_cases hp : p = ""
    · subst hp
      simp [addTruthy, truthyStr]
    · have ht : truthyStr (Option.some p) = true := by simp [truthyStr, hp]
      have ha : addTruthy (Option.some p) s = insert p s := by simp [addTruthy, hp]
      rw [ha]
      simp [ht, eq_comm]

theorem st_import_vars_nodup (m : ConfigModel) : (st_import_vars m).Nodup :=
  addTruthyList_nodup _ _ (addTruthyList_nodup _ _ (List.nodup_dedup _))

theorem st_import_vars_toFinset (m : ConfigModel) :
    (st_import_vars m).toFinset = required_vars m := by
  unfold st_import_vars required_vars
  rw [addTruthyList_toFinset, addTruthyList_toFinset, toFinset_list_dedup]

/-- C3: the variable list `load_data` passes to the session contains no
duplicates, its underlying set is exactly the `required_vars` set
`set(row_var) ∪ set(col_var) ∪ {value_var}` plus `pweight` /
`secondary_ref` when present (truthy), and that set is unchanged when
`row_var` or `col_var` are reordered. -/
theorem c3_required_set (m : ConfigModel) :
    (st_import_vars m).Nodup ∧
    (st_import_vars m).toFinset = required_vars m ∧
    (∀ x, x ∈ required_vars m ↔ (x ∈ m.row_var ∨ x ∈ m.col_var ∨ x = m.value_var ∨
      (truthyStr m.pweight = true ∧ m.pweight = Option.some x) ∨
      (truthyStr m.secondary_ref = true ∧ m.secondary_ref = Option.some x))) ∧
    (∀ m2 : ConfigModel, List.Perm m2.row_var m.row_var → List.Perm m2.col_var m.col_var →
      m2.value_var = m.value_var → m2.pweight = m.pweight → m2.secondary_ref = m.secondary_ref →
      required_vars m2 = required_vars m ∧
      (st_import_vars m2).toFinset = (st_import_vars m).toFinset) := by
  refine ⟨st_import_vars_nodup m, st_import_vars_toFinset m, fun x => ?_,
    fun m2 h1 h2 h3 h4 h5 => ?_⟩
  · unfold required_vars
    rw [mem_addTruthy, mem_addTruthy]
    simp only [List.toFinset_append, Finset.mem_union, List.mem_toFinset, List.mem_singleton]
    tauto
  · have hft : (m2.row_var ++ m2.col_var ++ [m2.value_var]).toFinset =
        (m.row_var ++ m.col_var ++ [m.value_var]).toFinset := by
      rw [h3]
      exact List.toFinset_eq_of_perm _ _ ((h1.append h2).append (List.Perm.refl _))
    have hreq : required_vars m2 = required_vars m := by
      unfold required_vars
      rw [h4, h5, hft]
    exact ⟨hreq, by rw [st_import_vars_toFinset, st_import_vars_toFinset, hreq]⟩

/-- C3 (witness): with `row_var` reversed the requested set is
unchanged, and the list for the `region`/`year`/`income` example is
duplicate-free with the expected set. -/
theorem c3_required_set_witness :
    (st_import_vars ⟨["region", "year"], ["year"], "income", Option.none, Option.none⟩).Nodup ∧
    required_vars ⟨["year", "region"], ["year"], "income", Option.none, Option.none⟩ =
      required_vars ⟨["region", "year"], ["year"], "income", Option.none, Option.none⟩ :=
  ⟨(c3_required_set ⟨["region", "year"], ["year"], "income", Option.none, Option.none⟩).1,
   ((c3_required_set ⟨["region", "year"], ["year"], "income", Option.none, Option.none⟩).2.2.2
      ⟨["year", "region"], ["year"], "income", Option.none, Option.none⟩
      (by decide) (by decide) rfl rfl rfl).1⟩

/-- C4: when the structural pass finds two or more violations (missing
field, wrong type, empty list), `validate_config` raises one
`ConfigValidationError` reporting them all; the cross-field check runs
only when the structural pass succeeded and yields a single descriptive
error. -/
theorem c4_error_aggregation (raw : RawConfig) :
    (∀ es, parse_fields raw = Except.error es → 2 ≤ es.length →
      validate_config raw = Except.error ⟨es⟩) ∧
    (∀ m d, parse_fields raw = Except.ok m →
      check_variable_names_distinct m = Except.error d →
      validate_config raw = Except.error ⟨[⟨[], ErrMsg.valueError d⟩]⟩) := by
  refine ⟨fun es hes _ => ?_, fun m d hm hd => ?_⟩
  · simp [validate_config, model_validate, hes]
  · simp [validate_config, model_validate, hm, hd]

/-- C4 (witness): a raw mapping missing `row_var` with a non-string
`value_var` yields both errors in one exception; a structurally valid
mapping with a duplicate inside `row_var` yields the single cross-field
error naming the list. -/
theorem c4_error_aggregation_witness :
    validate_config ⟨Option.none, Option.some (RawValue.vlist [RawValue.vstr "c"]),
        Option.some (RawValue.vint 3), Option.none, Option.none⟩ =
      Except.error ⟨[⟨["row_var"], ErrMsg.fieldRequired⟩,
        ⟨["value_var"], ErrMsg.notAValidString⟩]⟩ ∧
    validate_config (mkRaw ["a", "a"] ["c"] "v" Option.none Option.none) =
      Except.error ⟨[⟨[], ErrMsg.valueError (DistinctError.dupRow ["a", "a"])⟩]⟩ :=
  ⟨(c4_error_aggregation _).1
      [⟨["row_var"], ErrMsg.fieldRequired⟩, ⟨["value_var"], ErrMsg.notAValidString⟩]
      (by decide) (by decide),
   (c4_error_aggregation _).2 ⟨["a", "a"], ["c"], "v", Option.none, Option.none⟩
      (DistinctError.dupRow ["a", "a"]) (by decide) (by decide)⟩

end StataToDf

namespace StataToDf

/-- C5: within `load_data`, an exception from the data request is
wrapped into `DataLoaderError.loadFailed` carrying the requested
variable list and the original error text, while an exception that is
already a `DataLoaderError` — whether raised by the fetch or by session
setup — propagates unchanged with no double-wrapping. -/
theorem c5_wrap_unless_taxonomy (env : Env) (py : PystataOutcome) (fetch : Fetch)
    (config : ConfigModel) (vl : Bool)
    (hs : setup_stata env py = Except.ok fetch) :
    (∀ msg, fetch (st_import_vars config) vl = Except.error (PyExc.otherExc msg) →
      load_data env py config vl =
        Except.error (DataLoaderError.loadFailed (st_import_vars config) msg)) ∧
    (∀ e, fetch (st_import_vars config) vl = Except.error (PyExc.loaderError e) →
      load_data env py config vl = Except.error e) ∧
    (∀ env2 py2 e, setup_stata env2 py2 = Except.error e →
      load_data env2 py2 config vl = Except.error e) := by
  refine ⟨fun msg hf => ?_, fun e hf => ?_, fun env2 py2 e hse => ?_⟩
  · simp [load_data, hs, hf]
  · simp [load_data, hs, hf]
  · simp [load_data, hse]

/-- C5 (witness): a generic session fault is wrapped with the variable
list, an in-flight `DataLoaderError` passes through unchanged, and a
setup failure (missing path) propagates unchanged. -/
theorem c5_wrap_unless_taxonomy_witness :
    load_data ⟨Option.some "/opt/stata", Option.some "mp"⟩
      (PystataOutcome.ok (fun _ _ => Except.error (PyExc.otherExc "boom")))
      ⟨["r"], ["c"], "v", Option.none, Option.none⟩ true =
      Except.error (DataLoaderError.loadFailed
        (st_import_vars ⟨["r"], ["c"], "v", Option.none, Option.none⟩) "boom") ∧
    load_data ⟨Option.some "/opt/stata", Option.some "mp"⟩
      (PystataOutcome.ok (fun _ _ => Except.error
        (PyExc.loaderError (DataLoaderError.initFailed "bad"))))
      ⟨["r"], ["c"], "v", Option.none, Option.none⟩ true =
      Except.error (DataLoaderError.initFailed "bad") ∧
    load_data ⟨Option.none, Option.some "mp"⟩
      (PystataOutcome.ok (fun _ _ => Except.ok ⟨[], []⟩))
      ⟨["r"], ["c"], "v", Option.none, Option.none⟩ true =
      Except.error DataLoaderError.pathNotSet :=
  ⟨(c5_wrap_unless_taxonomy ⟨Option.some "/opt/stata", Option.some "mp"⟩
      (PystataOutcome.ok (fun _ _ => Except.error (PyExc.otherExc "boom")))
      (fun _ _ => Except.error (PyExc.otherExc "boom"))
      ⟨["r"], ["c"], "v", Option.none, Option.none⟩ true rfl).1 "boom" rfl,
   (c5_wrap_unless_taxonomy ⟨Option.some "/opt/stata", Option.some "mp"⟩
      (PystataOutcome.ok (fun _ _ => Except.error
        (PyExc.loaderError (DataLoaderError.initFailed "bad"))))
      (fun _ _ => Except.error (PyExc.loaderError (DataLoaderError.initFailed "bad")))
      ⟨["r"], ["c"], "v", Option.none, Option.none⟩ true rfl).2.1
      (DataLoaderError.initFailed "bad") rfl,
   (c5_wrap_unless_taxonomy ⟨Option.some "/opt/stata", Option.some "mp"⟩
      (PystataOutcome.ok (fun _ _ => Except.ok ⟨[], []⟩))
      (fun _ _ => Except.ok ⟨[], []⟩)
      ⟨["r"], ["c"], "v", Option.none, Option.none⟩ true rfl).2.2
      ⟨Option.none, Option.some "mp"⟩ (PystataOutcome.ok (fun _ _ => Except.ok ⟨[], []⟩))
      DataLoaderError.pathNotSet rfl⟩

/-- C6: when either piece of bootstrap configuration is absent
(`PYSTATA_PATH` or `STATA_EDITION` unset), `load_data` fails with a
`DataLoaderError` that does not depend on the external session at all —
the failure happens before any data request. -/
theorem c6_bootstrap_missing (env : Env)
    (h : env.PYSTATA_PATH = Option.none ∨ env.STATA_EDITION = Option.none) :
    ∃ e : DataLoaderError, ∀ py config vl, load_data env py config vl = Except.error e := by
  by_cases hp : truthyStr env.PYSTATA_PATH
  · have he : env.STATA_EDITION = Option.none := by
      rcases h with h | h
      · rw [h] at hp
        exact absurd hp (by simp [truthyStr])
      · exact h
    have hfn : truthyStr (Option.none : Option String) = false := rfl
    refine ⟨DataLoaderError.editionNotSet, fun py config vl => ?_⟩
    simp [load_data, setup_stata, hp, he, hfn]
  · refine ⟨DataLoaderError.pathNotSet, fun py config vl => ?_⟩
    simp [load_data, setup_stata, hp]

/-- C6 (witness): with `PYSTATA_PATH` unset the loader fails with one
fixed `DataLoaderError` for every session behaviour. -/
theorem c6_bootstrap_missing_witness :
    ∃ e : DataLoaderError, ∀ py config vl,
      load_data ⟨Option.none, Option.some "mp"⟩ py config vl = Except.error e :=
  c6_bootstrap_missing ⟨Option.none, Option.some "mp"⟩ (Or.inl rfl)

/-- C8: when the session returns a table with zero rows, `load_data`
succeeds and returns that empty table unchanged (emptiness is only a
warning). -/
theorem c8_empty_table_ok (env : Env) (py : PystataOutcome) (fetch : Fetch)
    (config : ConfigModel) (vl : Bool) (df : DataFrame)
    (hs : setup_stata env py = Except.ok fetch)
    (hf : fetch (st_import_vars config) vl = Except.ok df)
    (_he : df.rows = []) :
    load_data env py config vl = Except.ok df := by
  simp [load_data, hs, hf]

/-- C8 (witness): a session holding the requested columns but zero
observations is returned as-is. -/
theorem c8_empty_table_ok_witness :
    load_data ⟨Option.some "/opt/stata", Option.some "mp"⟩
      (PystataOutcome.ok (fun _ _ => Except.ok ⟨["r", "c", "v"], []⟩))
      ⟨["r"], ["c"], "v", Option.none, Option.none⟩ true =
      Except.ok ⟨["r", "c", "v"], []⟩ :=
  c8_empty_table_ok ⟨Option.some "/opt/stata", Option.some "mp"⟩
    (PystataOutcome.ok (fun _ _ => Except.ok ⟨["r", "c", "v"], []⟩))
    (fun _ _ => Except.ok ⟨["r", "c", "v"], []⟩)
    ⟨["r"], ["c"], "v", Option.none, Option.none⟩ true ⟨["r", "c", "v"], []⟩ rfl rfl rfl

/-- C7 (counterexample): the `except Exception` clause of the entry
point does NOT wrap an unexpected (non-taxonomy) exception into a
taxonomy base error — it re-raises it unchanged, still outside the
taxonomy. -/
theorem c7_counterexample :
    stata_to_df_handlers (Except.error (AppExc.otherExc "boom")) =
      Except.error (AppExc.otherExc "boom") ∧
    (AppExc.otherExc "boom").isStataToDfBaseError = false :=
  ⟨rfl, rfl⟩

/-- C7 (amended): the public entry point re-raises any taxonomy error
(`ConfigValidationError`, `DataLoaderError`) unchanged, and also
re-raises any other unexpected exception unchanged (it is logged at the
boundary but not wrapped). -/
theorem c7_reraise_unchanged :
    (∀ r : Except AppExc DataFrame, stata_to_df_handlers r = r) ∧
    (∀ env py raw vl e, validate_config raw = Except.error e →
      stata_to_df env py raw vl = Except.error (AppExc.configError e)) ∧
    (∀ env py raw vl config e, validate_config raw = Except.ok config →
      load_data env py config vl = Except.error e →
      stata_to_df env py raw vl = Except.error (AppExc.loaderError e)) := by
  refine ⟨fun r => ?_, fun env py raw vl e hv => ?_,
    fun env py raw vl config e hv hl => ?_⟩
  · cases r with
    | ok df => rfl
    | error e => simp [stata_to_df_handlers]
  · simp [stata_to_df, hv, stata_to_df_handlers]
  · simp [stata_to_df, hv, hl, stata_to_df_handlers]

/-- C7 (witness): a non-taxonomy exception passes the handlers
unchanged; a validation error and a loader error surface unchanged
through the entry point. -/
theorem c7_reraise_unchanged_witness :
    stata_to_df_handlers (Except.error (AppExc.otherExc "kaput")) =
      Except.error (AppExc.otherExc "kaput") ∧
    stata_to_df ⟨Option.some "/opt/stata", Option.some "mp"⟩
      (PystataOutcome.ok (fun _ _ => Except.ok ⟨[], []⟩))
      (mkRaw [] ["c"] "v" Option.none Option.none) true =
      Except.error (AppExc.configError ⟨[⟨["row_var"], ErrMsg.listTooShort⟩]⟩) ∧
    stata_to_df ⟨Option.none, Option.none⟩
      (PystataOutcome.ok (fun _ _ => Except.ok ⟨[], []⟩))
      (mkRaw ["r"] ["c"] "v" Option.none Option.none) true =
      Except.error (AppExc.loaderError DataLoaderError.pathNotSet) :=
  ⟨c7_reraise_unchanged.1 (Except.error (AppExc.otherExc "kaput")),
   c7_reraise_unchanged.2.1 ⟨Option.some "/opt/stata", Option.some "mp"⟩
     (PystataOutcome.ok (fun _ _ => Except.ok ⟨[], []⟩))
     (mkRaw [] ["c"] "v" Option.none Option.none) true
     ⟨[⟨["row_var"], ErrMsg.listTooShort⟩]⟩ (by decide),
   c7_reraise_unchanged.2.2 ⟨Option.none, Option.none⟩
     (PystataOutcome.ok (fun _ _ => Except.ok ⟨[], []⟩))
     (mkRaw ["r"] ["c"] "v" Option.none Option.none) true
     ⟨["r"], ["c"], "v", Option.none, Option.none⟩ DataLoaderError.pathNotSet
     (by decide) rfl⟩

end StataToDf
